import Mathlib

/-!
Shallow embedding of the soundscribe recording/download subsystem.

Source files modelled:
* `src/soundscribe/audio/sinks.py`   — `AudioData` per-user byte buffer.
* `src/soundscribe/audio/mixer.py`   — `AudioMixer` ffmpeg command construction and dispatch.
* `src/soundscribe/audio/recorder.py` — `AudioRecorder` (coordinator) and `RecordingSession`.
* `src/soundscribe/server.py`        — `DownloadServer` token map, download route, health route.

Conventions: byte strings are `List Nat`; wall-clock instants (`time.time()`) are `Nat`;
the filesystem is passed explicitly as the list `fs` of paths that exist; the random token
from `secrets.token_urlsafe(32)` is passed in as an argument (its byte count is the constant
`token_urlsafe_nbytes`); exceptions that propagate while object state has already been mutated
are modelled by returning the error alongside the post-call state.
-/

set_option autoImplicit false

/-- `sinks.AudioData`: an in-memory buffer (`io.BytesIO`) plus the `_closed` flag. -/
structure AudioData where
  file : List Nat
  closed : Bool
deriving Repr, DecidableEq

/-- `AudioData.__init__`: empty buffer, not closed. -/
def AudioData.init : AudioData := { file := [], closed := false }

/-- `AudioData.write(data)`: append to the buffer unless `_closed` is set. -/
def AudioData.write (a : AudioData) (data : List Nat) : AudioData :=
  if a.closed then a else { a with file := a.file ++ data }

/-- `AudioData.close()`: set the `_closed` flag. -/
def AudioData.close (a : AudioData) : AudioData := { a with closed := true }

/-! ## mixer.py -/

/-- `AudioMixer.__init__` sets `self.ffmpeg_path = "ffmpeg"`. -/
def ffmpeg_path : String := "ffmpeg"

/-- The command list built by `AudioMixer._convert_single_file` (re-encode one file to MP3). -/
def convert_single_file_cmd (input_path output_path : String) : List String :=
  [ffmpeg_path, "-y", "-i", input_path, "-acodec", "libmp3lame", "-ab", "128k", output_path]

/-- The command list built by `AudioMixer._mix_multiple_files`: one `-i` per input, then an
`amix` filter over all inputs.  `total_duration` is received but never used, exactly as in the
source. -/
def mix_multiple_files_cmd (audio_files : List (String × Int)) (output_path : String)
    (total_duration : Int) : List String :=
  [ffmpeg_path, "-y"] ++ (audio_files.flatMap fun f => ["-i", f.1]) ++
    ["-filter_complex",
     "amix=inputs=" ++ toString audio_files.length ++ ":duration=longest:dropout_transition=2",
     "-acodec", "libmp3lame", "-ab", "128k", output_path]

/-- The `ValueError("No audio files to mix")` raised by `mix_audio_files` on an empty list. -/
inductive MixError
  | noAudioFiles
deriving Repr, DecidableEq

/-- `AudioMixer.mix_audio_files`: empty list raises; a single file goes through
`_convert_single_file`; two or more go through `_mix_multiple_files`.  The result is the
ffmpeg command handed to `_run_ffmpeg`. -/
def mix_audio_files (audio_files : List (String × Int)) (output_path : String)
    (total_duration : Int) : Except MixError (List String) :=
  match audio_files with
  | [] => .error .noAudioFiles
  | [single] => .ok (convert_single_file_cmd single.1 output_path)
  | files => .ok (mix_multiple_files_cmd files output_path total_duration)

/-! ## recorder.py -/

/-- `RecordingSession`: guild, derived session id, output directory, completion flag and the
final artifact path (set only on a successful mix). -/
structure RecordingSession where
  guild_id : Nat
  session_id : String
  recordings_dir : String
  is_complete : Bool
  final_audio_path : Option String
deriving Repr, DecidableEq

/-- `RecordingSession._generate_session_id`: `f"recording_{guild_id}_{timestamp}"`. -/
def generate_session_id (guild_id : Nat) (timestamp : String) : String :=
  "recording_" ++ toString guild_id ++ "_" ++ timestamp

/-- `RecordingSession.__init__` (the `datetime.now()` timestamp string is passed in). -/
def RecordingSession.create (guild_id : Nat) (recordings_dir timestamp : String) :
    RecordingSession :=
  { guild_id := guild_id
    session_id := generate_session_id guild_id timestamp
    recordings_dir := recordings_dir
    is_complete := false
    final_audio_path := none }

/-- Temp-file path `f"{session_id}_user_{user_id}.wav"` under the recordings directory. -/
def temp_file_path (dir session_id : String) (user_id : Nat) : String :=
  dir ++ "/" ++ session_id ++ "_user_" ++ toString user_id ++ ".wav"

/-- Final artifact path `f"{session_id}.mp3"` under the recordings directory. -/
def final_file_path (dir session_id : String) : String :=
  dir ++ "/" ++ session_id ++ ".mp3"

/-- `RecordingSession.process_recording(sink, mixer)`: `audio_data` is `sink.audio_data` as an
association list, `mix_success` is whether the ffmpeg subprocess exited zero.  With no audio
data the session is just marked complete.  Otherwise one temp file is written per user
(`if audio.file:` is always true of a `BytesIO`), the mixer is invoked, and on success
`final_audio_path` is set; an exception from the mixer is caught by the `except` clause,
leaving `final_audio_path` untouched, and the `finally` clause sets `is_complete` in every
case. -/
def RecordingSession.process_recording (s : RecordingSession)
    (audio_data : List (Nat × AudioData)) (mix_success : Bool) : RecordingSession :=
  if audio_data.isEmpty then { s with is_complete := true }
  else
    let temp_files : List (String × Int) :=
      audio_data.map fun e => (temp_file_path s.recordings_dir s.session_id e.1, 0)
    if temp_files.isEmpty then { s with is_complete := true }
    else if mix_success then
      { s with final_audio_path := some (final_file_path s.recordings_dir s.session_id)
               is_complete := true }
    else { s with is_complete := true }

/-- `AudioRecorder`: the process-wide coordinator state (`recordings_dir`, `is_recording`,
`current_session`). -/
structure AudioRecorder where
  recordings_dir : String
  is_recording : Bool
  current_session : Option RecordingSession
deriving Repr, DecidableEq

/-- `AudioRecorder.__init__`. -/
def AudioRecorder.init (recordings_dir : String) : AudioRecorder :=
  { recordings_dir := recordings_dir, is_recording := false, current_session := none }

/-- Errors observable from `start_recording`: the `RuntimeError("Already recording")` guard,
and any exception raised by `voice_client.start_recording` (the capture backend). -/
inductive StartError
  | alreadyRecording
  | captureBackend
deriving Repr, DecidableEq

/-- `AudioRecorder.start_recording(voice_client, guild_id)`: raises `AlreadyRecording` when
`is_recording` is set, leaving the state untouched.  Otherwise it first assigns
`current_session` and sets `is_recording = True`, and only then calls
`voice_client.start_recording`; `capture_ok` says whether that call succeeds.  When it raises,
the exception propagates with the already-mutated state left in place, which the pair
(error, post-state) records. -/
def AudioRecorder.start_recording (r : AudioRecorder) (guild_id : Nat) (timestamp : String)
    (capture_ok : Bool) : Option StartError × AudioRecorder :=
  if r.is_recording then (some .alreadyRecording, r)
  else
    let sess := RecordingSession.create guild_id r.recordings_dir timestamp
    let r1 := { r with current_session := some sess, is_recording := true }
    if capture_ok then (none, r1) else (some .captureBackend, r1)

/-- The error type the spec's `stop()` contract names; the source never raises it from
`stop_recording`. -/
inductive StopError
  | notRecording
deriving Repr, DecidableEq

/-- `AudioRecorder.stop_recording()`: when `is_recording` is false or `current_session` is
`None` it returns `None` immediately (no exception).  Otherwise it clears `is_recording`,
waits for the finished-callback to complete the session, and returns the session's
`final_audio_path`; `completed_path` is that value at the moment `is_complete` first reads
true (the callback then clears `current_session`). -/
def AudioRecorder.stop_recording (r : AudioRecorder) (completed_path : Option String) :
    Except StopError (Option String) × AudioRecorder :=
  if !r.is_recording || r.current_session.isNone then (.ok none, r)
  else (.ok completed_path, { r with is_recording := false, current_session := none })

/-! ## server.py -/

/-- The token map `self.download_tokens : token -> (file_path, expiry_time)` as an
association list in insertion order (Python dict semantics). -/
abbrev TokenMap := List (String × String × Nat)

/-- `self.token_expiry = 3600` (one hour), set unconditionally by `__init__`. -/
def token_expiry : Nat := 3600

/-- The byte count handed to `secrets.token_urlsafe(32)` when minting a token. -/
def token_urlsafe_nbytes : Nat := 32

/-- `DownloadServer` state relevant to the routes: host, port and the token map. -/
structure DownloadServer where
  host : String
  port : Nat
  download_tokens : TokenMap
deriving Repr, DecidableEq

/-- `DownloadServer.__init__` (default host/port). -/
def DownloadServer.init (host : String) (port : Nat) : DownloadServer :=
  { host := host, port := port, download_tokens := [] }

/-- `Path(file_path).name`: the component after the last slash. -/
def path_name (file_path : String) : String :=
  (file_path.splitOn "/").reverse.headD file_path

/-- Outcome of `GET /download/{token}`: an `HTTPException(404, detail)` or a `FileResponse`. -/
inductive DownloadResult
  | http404 (detail : String)
  | fileResponse (path filename media_type : String)
deriving Repr, DecidableEq

/-- `del self.download_tokens[token]`: removes the (unique) entry with that key. -/
def eraseToken (m : TokenMap) (token : String) : TokenMap :=
  m.eraseP fun e => e.1 == token

/-- `self.download_tokens[token] = value`: replace in place when the key exists, else append
(Python dict assignment). -/
def dictInsert (m : TokenMap) (token : String) (v : String × Nat) : TokenMap :=
  if m.any (fun e => e.1 == token) then
    m.map fun e => if e.1 == token then (token, v) else e
  else m ++ [(token, v)]

/-- The `download_file` route handler: 404 for an unknown token; 404 and delete when
`current_time > expiry_time`; 404 and delete when the file no longer exists; otherwise a
`FileResponse` with the original filename and `audio/mpeg`, leaving the map untouched.
`fs` is the set of paths that exist on disk. -/
def DownloadServer.download_file (s : DownloadServer) (fs : List String) (token : String)
    (current_time : Nat) : DownloadResult × DownloadServer :=
  match s.download_tokens.lookup token with
  | none => (.http404 "Invalid or expired download link", s)
  | some (file_path, expiry_time) =>
    if expiry_time < current_time then
      (.http404 "Download link has expired",
       { s with download_tokens := eraseToken s.download_tokens token })
    else if !fs.contains file_path then
      (.http404 "File not found",
       { s with download_tokens := eraseToken s.download_tokens token })
    else
      (.fileResponse file_path (path_name file_path) "audio/mpeg", s)

/-- The `health_check` route handler: `{"status": "healthy", "active_tokens": len(map)}`. -/
def DownloadServer.health_check (s : DownloadServer) : String × Nat :=
  ("healthy", s.download_tokens.length)

/-- `DownloadServer._cleanup_expired_tokens`: delete every entry with
`current_time > expiry`. -/
def DownloadServer.cleanup_expired_tokens (s : DownloadServer) (current_time : Nat) :
    DownloadServer :=
  { s with download_tokens := s.download_tokens.filter fun e => decide (current_time ≤ e.2.2) }

/-- The `FileNotFoundError` raised by `create_download_link` for a missing path. -/
inductive CreateLinkError
  | fileNotFound (msg : String)
deriving Repr, DecidableEq

/-- `DownloadServer.create_download_link(file_path)`: raise `FileNotFoundError` when the path
does not exist; otherwise store `(file_path, now + token_expiry)` under the fresh `token`
(the value of `secrets.token_urlsafe(32)`, passed in), run the expiry sweep, and return the
download URL embedding the token together with the post-call state. -/
def DownloadServer.create_download_link (s : DownloadServer) (fs : List String)
    (file_path token : String) (now : Nat) : Except CreateLinkError (String × DownloadServer) :=
  if !fs.contains file_path then
    .error (.fileNotFound ("File not found: " ++ file_path))
  else
    let expiry_time := now + token_expiry
    let s1 := { s with download_tokens := dictInsert s.download_tokens token (file_path, expiry_time) }
    let s2 := s1.cleanup_expired_tokens now
    .ok ("http://" ++ s.host ++ ":" ++ toString s.port ++ "/download/" ++ token, s2)

/-! ## Theorems -/

/-- C1: with a session already active (`is_recording` true) any further `start_recording`
call fails with `AlreadyRecording` and returns the state unchanged, so the existing active
session is neither replaced nor overwritten. -/
theorem start_recording_single_active_slot (r : AudioRecorder) (guild_id : Nat)
    (timestamp : String) (capture_ok : Bool) (h : r.is_recording = true) :
    r.start_recording guild_id timestamp capture_ok = (some .alreadyRecording, r) := by
  simp [AudioRecorder.start_recording, h]

/-- Witness for C1: a recorder mid-recording rejects a second start and keeps its state. -/
theorem start_recording_single_active_slot_witness :
    ({ recordings_dir := "recordings", is_recording := true
       current_session := some (RecordingSession.create 7 "recordings" "20240101_120000") } :
        AudioRecorder).start_recording 9 "20240101_120001" true =
      (some .alreadyRecording,
       { recordings_dir := "recordings", is_recording := true
         current_session := some (RecordingSession.create 7 "recordings" "20240101_120000") }) :=
  start_recording_single_active_slot _ 9 "20240101_120001" true rfl

/-- C2 counterexample: on the freshly initialised recorder (no `start` ever issued),
`stop_recording` returns `None` normally; it does not fail with `NotRecording`. -/
theorem stop_recording_before_start_returns_none :
    (AudioRecorder.init "recordings").stop_recording none =
      (.ok none, AudioRecorder.init "recordings") ∧
    ((AudioRecorder.init "recordings").stop_recording none).1 ≠
      Except.error StopError.notRecording :=
  ⟨rfl, fun h => Except.noConfusion h⟩

/-- C2 (amended): when no session is active (`is_recording` false, or no current session),
`stop_recording` returns `None` without raising and leaves the recorder unchanged. -/
theorem stop_recording_no_session (r : AudioRecorder) (completed_path : Option String)
    (h : r.is_recording = false ∨ r.current_session = none) :
    r.stop_recording completed_path = (.ok none, r) := by
  rcases h with h | h <;> simp [AudioRecorder.stop_recording, h]

/-- Witness for the amended C2: stopping the fresh recorder yields `.ok none`. -/
theorem stop_recording_no_session_witness :
    (AudioRecorder.init "recordings").stop_recording (some "x.mp3") =
      (.ok none, AudioRecorder.init "recordings") :=
  stop_recording_no_session (AudioRecorder.init "recordings") (some "x.mp3") (Or.inl rfl)

/-- C3 failing run: starting from the clean initial state with a failing capture backend,
the error propagates but `is_recording` is left `true` and the dead session is left
registered, so the very next `start_recording` is rejected with `AlreadyRecording` instead
of succeeding — the claimed clean "no active session" state does not hold. -/
theorem start_recording_failure_leaks_state :
    ((AudioRecorder.init "recordings").start_recording 42 "20240101_000000" false).1 =
      some StartError.captureBackend ∧
    ((AudioRecorder.init "recordings").start_recording 42 "20240101_000000" false).2.is_recording =
      true ∧
    ((AudioRecorder.init "recordings").start_recording 42 "20240101_000000" false).2.current_session ≠
      none ∧
    (((AudioRecorder.init "recordings").start_recording 42 "20240101_000000" false).2.start_recording
        42 "20240101_000001" true).1 = some StartError.alreadyRecording :=
  ⟨rfl, rfl, fun h => Option.noConfusion h, rfl⟩

/-- C7: when there is audio data but the mixer (ffmpeg) fails, `process_recording` still
marks the session COMPLETE while `final_audio_path` stays `None`, and the resulting session
is literally the same as for a session that captured no audio at all. -/
theorem process_recording_mixer_failure (s : RecordingSession)
    (audio_data : List (Nat × AudioData)) (h : audio_data ≠ [])
    (hpath : s.final_audio_path = none) :
    (s.process_recording audio_data false).is_complete = true ∧
    (s.process_recording audio_data false).final_audio_path = none ∧
    s.process_recording audio_data false = s.process_recording [] true := by
  refine ⟨?_, ?_, ?_⟩ <;>
    simp [RecordingSession.process_recording, List.isEmpty_iff, h, hpath]

/-- Witness for C7: a two-participant session whose mix fails completes with no artifact. -/
theorem process_recording_mixer_failure_witness :
    ((RecordingSession.create 7 "recordings" "t").process_recording
        [(1, AudioData.init.write [0, 1]), (2, AudioData.init.write [2])] false).is_complete =
      true ∧
    ((RecordingSession.create 7 "recordings" "t").process_recording
        [(1, AudioData.init.write [0, 1]), (2, AudioData.init.write [2])] false).final_audio_path =
      none ∧
    (RecordingSession.create 7 "recordings" "t").process_recording
        [(1, AudioData.init.write [0, 1]), (2, AudioData.init.write [2])] false =
      (RecordingSession.create 7 "recordings" "t").process_recording [] true :=
  process_recording_mixer_failure (RecordingSession.create 7 "recordings" "t")
    [(1, AudioData.init.write [0, 1]), (2, AudioData.init.write [2])]
    (fun h => List.noConfusion h) rfl

/-- C10: once `close()` has been called on an `AudioData`, every subsequent `write(data)` is
a no-op: the whole object, and in particular the accumulated buffer, is unchanged. -/
theorem audioData_write_after_close (a : AudioData) (data : List Nat) :
    (a.close).write data = a.close ∧ ((a.close).write data).file = a.file := by
  constructor <;> simp [AudioData.write, AudioData.close]

/-! ### Token-map helper lemmas -/

/-- A lookup misses exactly when the key is absent from the map's key list. -/
theorem tokenMap_lookup_eq_none_iff (m : TokenMap) (t : String) :
    m.lookup t = none ↔ t ∉ m.map Prod.fst := by
  induction m with
  | nil => simp
  | cons e rest ih =>
    obtain ⟨k, v⟩ := e
    rw [List.lookup_cons]
    cases htk : t == k with
    | true =>
      have heq : t = k := by simpa using htk
      simp [heq]
    | false =>
      have hne : t ≠ k := by simpa using htk
      simp [hne, ih]

/-- Deleting an entry that is present shortens the map by exactly one. -/
theorem tokenMap_eraseToken_length (m : TokenMap) (t : String) (v : String × Nat)
    (h : m.lookup t = some v) : (eraseToken m t).length + 1 = m.length := by
  induction m with
  | nil => simp at h
  | cons e rest ih =>
    obtain ⟨k, w⟩ := e
    rw [List.lookup_cons] at h
    cases htk : t == k with
    | true =>
      have heq : t = k := by simpa using htk
      subst heq
      simp [eraseToken, List.eraseP_cons]
    | false =>
      rw [htk] at h
      have hne : t ≠ k := by simpa using htk
      have hkt : (k == t) = false := beq_eq_false_iff_ne.mpr (Ne.symm hne)
      have := ih h
      simp [eraseToken, List.eraseP_cons, hkt]
      unfold eraseToken at this
      omega

/-- With no duplicate keys, the deleted key no longer resolves after `del`. -/
theorem tokenMap_lookup_eraseToken (m : TokenMap) (t : String)
    (hnd : (m.map Prod.fst).Nodup) : (eraseToken m t).lookup t = none := by
  induction m with
  | nil => rfl
  | cons e rest ih =>
    obtain ⟨k, w⟩ := e
    simp only [List.map_cons, List.nodup_cons] at hnd
    cases htk : t == k with
    | true =>
      have heq : t = k := by simpa using htk
      subst heq
      simp only [eraseToken, List.eraseP_cons, beq_self_eq_true, cond_true]
      exact (tokenMap_lookup_eq_none_iff rest t).mpr hnd.1
    | false =>
      have hne : t ≠ k := by simpa using htk
      have hkt : (k == t) = false := beq_eq_false_iff_ne.mpr (Ne.symm hne)
      simp only [eraseToken, List.eraseP_cons, hkt, cond_false, List.lookup_cons, htk]
      exact ih hnd.2

/-- Lookup walks past a leading block in which the key is absent. -/
theorem tokenMap_lookup_append (m1 m2 : TokenMap) (t : String) (h : m1.lookup t = none) :
    (m1 ++ m2).lookup t = m2.lookup t := by
  induction m1 with
  | nil => simp
  | cons e rest ih =>
    obtain ⟨k, w⟩ := e
    rw [List.lookup_cons] at h
    cases htk : t == k with
    | true => rw [htk] at h; simp at h
    | false =>
      rw [htk] at h
      simp only [List.cons_append, List.lookup_cons, htk]
      exact ih h

/-- A key absent from a map is absent from any filtering of it. -/
theorem tokenMap_lookup_filter_none (m : TokenMap) (q : String × String × Nat → Bool)
    (t : String) (h : m.lookup t = none) : (m.filter q).lookup t = none := by
  refine (tokenMap_lookup_eq_none_iff _ _).mpr fun hmem => ?_
  obtain ⟨e, he, hfst⟩ := List.mem_map.mp hmem
  exact (tokenMap_lookup_eq_none_iff m t).mp h
    (List.mem_map.mpr ⟨e, (List.mem_filter.mp he).1, hfst⟩)

/-- Python dict assignment with a fresh key appends the new binding at the end. -/
theorem dictInsert_fresh (m : TokenMap) (t : String) (v : String × Nat)
    (h : m.lookup t = none) : dictInsert m t v = m ++ [(t, v)] := by
  have hnm : t ∉ m.map Prod.fst := (tokenMap_lookup_eq_none_iff m t).mp h
  unfold dictInsert
  rw [if_neg]
  intro hany
  obtain ⟨e, he, heq⟩ := List.any_eq_true.mp hany
  exact hnm (List.mem_map.mpr ⟨e, he, by simpa using heq⟩)

/-- C4: redeeming a token whose stored expiry is strictly in the past returns 404, deletes
the token (so it no longer resolves, and the `active_tokens` count of a subsequent
`health_check` drops by one); redeeming a token absent from the map returns 404 with the
state unchanged. -/
theorem download_file_expired_or_unknown (s : DownloadServer) (fs : List String)
    (token file_path : String) (expiry now : Nat)
    (hnd : (s.download_tokens.map Prod.fst).Nodup) :
    (s.download_tokens.lookup token = none →
      s.download_file fs token now = (.http404 "Invalid or expired download link", s)) ∧
    (s.download_tokens.lookup token = some (file_path, expiry) → expiry < now →
      (s.download_file fs token now).1 = .http404 "Download link has expired" ∧
      ((s.download_file fs token now).2.download_tokens).lookup token = none ∧
      ((s.download_file fs token now).2.health_check).2 + 1 = (s.health_check).2) := by
  constructor
  · intro h
    simp [DownloadServer.download_file, h]
  · intro h hexp
    have hres : s.download_file fs token now =
        (.http404 "Download link has expired",
         { s with download_tokens := eraseToken s.download_tokens token }) := by
      simp [DownloadServer.download_file, h, hexp]
    refine ⟨by rw [hres], ?_, ?_⟩
    · rw [hres]
      exact tokenMap_lookup_eraseToken _ _ hnd
    · rw [hres]
      simpa [DownloadServer.health_check] using
        tokenMap_eraseToken_length s.download_tokens token (file_path, expiry) h

/-- Witness for C4: a token stored with expiry 100, redeemed at time 3702, yields 404, stops
resolving, and drops out of the health count. -/
theorem download_file_expired_or_unknown_witness :
    ((DownloadServer.mk "127.0.0.1" 8000 [("tokA", "rec/a.mp3", 100)]).download_file
        ["rec/a.mp3"] "tokA" 3702).1 = .http404 "Download link has expired" ∧
    (((DownloadServer.mk "127.0.0.1" 8000 [("tokA", "rec/a.mp3", 100)]).download_file
        ["rec/a.mp3"] "tokA" 3702).2.download_tokens).lookup "tokA" = none ∧
    (((DownloadServer.mk "127.0.0.1" 8000 [("tokA", "rec/a.mp3", 100)]).download_file
        ["rec/a.mp3"] "tokA" 3702).2.health_check).2 + 1 =
      ((DownloadServer.mk "127.0.0.1" 8000 [("tokA", "rec/a.mp3", 100)]).health_check).2 :=
  (download_file_expired_or_unknown
      (DownloadServer.mk "127.0.0.1" 8000 [("tokA", "rec/a.mp3", 100)])
      ["rec/a.mp3"] "tokA" "rec/a.mp3" 100 3702 (by decide)).2 (by decide) (by decide)

/-- C5: redeeming a present, unexpired token whose file exists streams the file and leaves
the whole server state — in particular the token map — unchanged, so the token is not
single-use and can be redeemed again until its expiry passes. -/
theorem download_file_valid_token_unchanged (s : DownloadServer) (fs : List String)
    (token file_path : String) (expiry now : Nat)
    (hl : s.download_tokens.lookup token = some (file_path, expiry))
    (hexp : ¬ expiry < now) (hfs : file_path ∈ fs) :
    s.download_file fs token now =
      (.fileResponse file_path (path_name file_path) "audio/mpeg", s) := by
  simp [DownloadServer.download_file, hl, hexp, hfs]

/-- Witness for C5: an unexpired token resolves to a `FileResponse` with the map intact. -/
theorem download_file_valid_token_unchanged_witness :
    (DownloadServer.mk "127.0.0.1" 8000 [("tokB", "rec/b.mp3", 4000)]).download_file
        ["rec/b.mp3"] "tokB" 3702 =
      (.fileResponse "rec/b.mp3" (path_name "rec/b.mp3") "audio/mpeg",
       DownloadServer.mk "127.0.0.1" 8000 [("tokB", "rec/b.mp3", 4000)]) :=
  download_file_valid_token_unchanged
    (DownloadServer.mk "127.0.0.1" 8000 [("tokB", "rec/b.mp3", 4000)])
    ["rec/b.mp3"] "tokB" "rec/b.mp3" 4000 3702 (by decide) (by decide) (by decide)

/-- C6: `create_download_link` errors with `FileNotFound` when the path does not exist;
otherwise it stores the fresh token with expiry `now + 3600`, sweeps every already-expired
token out of the map, and returns the URL embedding the token, with the new token resolving
in the returned state.  The minted token carries `8 * 32 = 256` bits of randomness. -/
theorem create_download_link_spec (s : DownloadServer) (fs : List String)
    (file_path token : String) (now : Nat)
    (hfresh : s.download_tokens.lookup token = none) :
    (file_path ∉ fs →
      s.create_download_link fs file_path token now =
        .error (.fileNotFound ("File not found: " ++ file_path))) ∧
    (file_path ∈ fs →
      ∃ s2, s.create_download_link fs file_path token now =
          .ok ("http://" ++ s.host ++ ":" ++ toString s.port ++ "/download/" ++ token, s2) ∧
        s2.download_tokens.lookup token = some (file_path, now + token_expiry) ∧
        token_expiry = 3600 ∧
        256 ≤ 8 * token_urlsafe_nbytes ∧
        (∀ e ∈ s.download_tokens, e.2.2 < now → e ∉ s2.download_tokens)) := by
  constructor
  · intro h
    simp [DownloadServer.create_download_link, h]
  · intro h
    have hins : dictInsert s.download_tokens token (file_path, now + token_expiry) =
        s.download_tokens ++ [(token, (file_path, now + token_expiry))] :=
      dictInsert_fresh _ _ _ hfresh
    refine ⟨{ s with download_tokens :=
        s.download_tokens.filter (fun e => decide (now ≤ e.2.2)) ++
          [(token, (file_path, now + token_expiry))] }, ?_, ?_, rfl, by decide, ?_⟩
    · simp [DownloadServer.create_download_link, h, DownloadServer.cleanup_expired_tokens,
            hins, List.filter_append, Nat.le_add_right]
    · rw [tokenMap_lookup_append]
      · simp [List.lookup_cons]
      · exact tokenMap_lookup_filter_none _ _ _ hfresh
    · intro e he hexp hmem
      rcases List.mem_append.mp hmem with hmem | hmem
      · have hkeep : now ≤ e.2.2 := by simpa using (List.mem_filter.mp hmem).2
        omega
      · have heq : e = (token, (file_path, now + token_expiry)) := by simpa using hmem
        exact (tokenMap_lookup_eq_none_iff _ _).mp hfresh
          (List.mem_map.mpr ⟨e, he, by rw [heq]⟩)

/-- Witness for C6: creating a link for an existing file at time 5000 mints the token,
embeds it in the URL, and sweeps the stale token stored with expiry 100. -/
theorem create_download_link_spec_witness :
    ∃ s2, (DownloadServer.mk "127.0.0.1" 8000 [("old", "rec/old.mp3", 100)]).create_download_link
        ["rec/a.mp3"] "rec/a.mp3" "newtok" 5000 =
        .ok ("http://" ++ "127.0.0.1" ++ ":" ++ toString 8000 ++ "/download/" ++ "newtok", s2) ∧
      s2.download_tokens.lookup "newtok" = some ("rec/a.mp3", 5000 + token_expiry) ∧
      token_expiry = 3600 ∧
      256 ≤ 8 * token_urlsafe_nbytes ∧
      (∀ e ∈ [(("old" : String), (("rec/old.mp3" : String), (100 : Nat)))],
        e.2.2 < 5000 → e ∉ s2.download_tokens) :=
  (create_download_link_spec
      (DownloadServer.mk "127.0.0.1" 8000 [("old", "rec/old.mp3", 100)])
      ["rec/a.mp3"] "rec/a.mp3" "newtok" 5000 (by decide)).2 (by decide)

/-- C8: `mix_audio_files` takes the single-file re-encode path exactly on one-element lists,
and on `N ≥ 2` inputs builds the ffmpeg command with one `-i` stream per file followed by an
N-way `amix` filter with `duration=longest` and `dropout_transition=2`. -/
theorem mix_audio_files_dispatch (files : List (String × Int)) (out : String) (td : Int)
    (h : files ≠ []) :
    (files.length = 1 → ∃ p off, files = [(p, off)] ∧
        mix_audio_files files out td = .ok (convert_single_file_cmd p out)) ∧
    (2 ≤ files.length →
        mix_audio_files files out td =
          .ok ([ffmpeg_path, "-y"] ++ (files.flatMap fun f => ["-i", f.1]) ++
               ["-filter_complex",
                "amix=inputs=" ++ toString files.length ++
                  ":duration=longest:dropout_transition=2",
                "-acodec", "libmp3lame", "-ab", "128k", out])) := by
  match files with
  | [] => exact absurd rfl h
  | [(p, off)] =>
    refine ⟨fun _ => ⟨p, off, rfl, rfl⟩, fun h2 => ?_⟩
    simp at h2
  | (a :: b :: rest) =>
    refine ⟨fun h1 => ?_, fun _ => rfl⟩
    simp at h1

/-- Witness for C8: two inputs produce the two-stream `amix` command. -/
theorem mix_audio_files_dispatch_witness :
    (([("a.wav", (0 : Int)), ("b.wav", 3)] : List (String × Int)).length = 1 →
      ∃ p off, ([("a.wav", (0 : Int)), ("b.wav", 3)] : List (String × Int)) = [(p, off)] ∧
        mix_audio_files [("a.wav", 0), ("b.wav", 3)] "out.mp3" 5 =
          .ok (convert_single_file_cmd p "out.mp3")) ∧
    (2 ≤ ([("a.wav", (0 : Int)), ("b.wav", 3)] : List (String × Int)).length →
      mix_audio_files [("a.wav", 0), ("b.wav", 3)] "out.mp3" 5 =
        .ok ([ffmpeg_path, "-y"] ++
             (([("a.wav", (0 : Int)), ("b.wav", 3)] : List (String × Int)).flatMap
               fun f => ["-i", f.1]) ++
             ["-filter_complex",
              "amix=inputs=" ++
                toString ([("a.wav", (0 : Int)), ("b.wav", 3)] : List (String × Int)).length ++
                ":duration=longest:dropout_transition=2",
              "-acodec", "libmp3lame", "-ab", "128k", "out.mp3"])) :=
  mix_audio_files_dispatch [("a.wav", 0), ("b.wav", 3)] "out.mp3" 5
    (fun hh => List.noConfusion hh)

/-- The per-input `-i` flags depend only on the file paths, not the offsets. -/
theorem flatMap_input_flags (l : List (String × Int)) :
    (l.flatMap fun f => ["-i", f.1]) = (l.map Prod.fst).flatMap fun p => ["-i", p] := by
  induction l with
  | nil => rfl
  | cons a t ih => simp [ih]

/-- C9: the N-way mix command is independent of the start offsets: any two input lists with
the same paths in the same order produce the identical ffmpeg invocation, whatever their
offsets — the offsets are accepted but never applied. -/
theorem mix_multiple_files_offsets_ignored (l1 l2 : List (String × Int)) (out : String)
    (td : Int) (h : l1.map Prod.fst = l2.map Prod.fst) :
    mix_multiple_files_cmd l1 out td = mix_multiple_files_cmd l2 out td := by
  have hlen : l1.length = l2.length := by
    have := congrArg List.length h
    simpa using this
  unfold mix_multiple_files_cmd
  rw [flatMap_input_flags, flatMap_input_flags, h, hlen]

/-- Witness for C9: the same two paths with offsets `(0, 3)` versus `(7, -2)` yield the
same command. -/
theorem mix_multiple_files_offsets_ignored_witness :
    mix_multiple_files_cmd [("a.wav", 0), ("b.wav", 3)] "out.mp3" 5 =
      mix_multiple_files_cmd [("a.wav", 7), ("b.wav", -2)] "out.mp3" 5 :=
  mix_multiple_files_offsets_ignored [("a.wav", 0), ("b.wav", 3)]
    [("a.wav", 7), ("b.wav", -2)] "out.mp3" 5 rfl
